import Mathlib

/-!
# Turtlebot3MotorDriver (AGV_core): a shallow embedding

Source: `src/turtlebot3/turtlebot3_motor_driver.cpp`.

The driver talks to four Dynamixel actuators through the Dynamixel SDK
(`PortHandler`, `PacketHandler`, `GroupSyncWrite`, `GroupSyncRead`).  The SDK
and the driver's header are not part of the source file, so

* the constants of the header are fields of `Config`;
* the SDK is an oracle `Bus`: every call the driver makes is appended to a
  history (`Driver.history`), and the answer to a call is a function of the
  history before it and of the call's arguments.  Any deterministic
  collaborator is such a function;
* the parameter lists of the two group-sync objects are explicit lists owned
  by the driver state.

The transform of `controlMotor` is stated over `ℚ`, for the sign and symmetry
relations between the four wheel values, which the rounding of `float` keeps.
The integers that the `float` store and the `(int64_t)` cast produce depend on
that rounding and are not modelled.  `Serial.println` diagnostics write to a
console the driver never reads back; they are left out.
-/

namespace Turtlebot3MotorDriver

/-! ## Constants of the header -/

/-- The macros of `turtlebot3_motor_driver.h` and of the SDK that the source
file uses by name.  Their values are not in the source file; they are
parameters of the development. -/
structure Config where
  BAUDRATE : Nat
  DXL_LEFT_ID : Nat
  DXL_RIGHT_ID : Nat
  DXL_BACK_LEFT_ID : Nat
  DXL_BACK_RIGHT_ID : Nat
  ADDR_X_TORQUE_ENABLE : Nat
  ADDR_X_GOAL_VELOCITY : Nat
  LEN_X_GOAL_VELOCITY : Nat
  ADDR_X_PRESENT_POSITION : Nat
  LEN_X_PRESENT_POSITION : Nat
  COMM_SUCCESS : Int
  LINEAR_X : Nat
  LINEAR_Y : Nat
  ANGULAR : Nat
  VELOCITY_CONSTANT_VALUE : ℚ
  LIMIT_X_MAX_VELOCITY : ℚ

/-! ## The bus collaborator -/

/-- One call of the driver on the SDK.  The two transmit calls carry the
parameter list the group-sync object holds at that moment, which is what goes
on the wire. -/
inductive Call where
  | openPort
  | setBaudRate (baudrate : Nat)
  | closePort
  | write1ByteTxRx (id : Nat) (address : Nat) (data : Nat)
  | readAddParam (id : Nat)
  | readTxRxPacket (params : List Nat)
  | readIsAvailable (id : Nat) (address : Nat) (length : Nat)
  | readGetData (id : Nat) (address : Nat) (length : Nat)
  | readClearParam
  | writeAddParam (id : Nat) (data : List Nat)
  | writeTxPacket (params : List (Nat × List Nat))
  | writeClearParam
  deriving DecidableEq, Repr

/-- Modelled from the spec: the Bus Transport collaborator of section 6 (the
SDK's port, packet and group-sync objects), whose code is not in the source
file.  Each answer may depend on everything the driver has done so far (the
first argument) and on the arguments of the call.
`write1ByteTxRx` answers the communication result and the value `dxl_error`
holds after the call (it is `0` before it). -/
structure Bus where
  openPort : List Call → Bool
  setBaudRate : List Call → Nat → Bool
  write1ByteTxRx : List Call → Nat → Nat → Nat → Int × Nat
  readAddParam : List Call → Nat → Bool
  readTxRxPacket : List Call → Int
  isAvailable : List Call → Nat → Nat → Nat → Bool
  getData : List Call → Nat → Nat → Nat → Int
  writeAddParam : List Call → Nat → List Nat → Bool
  writeTxPacket : List Call → Int

/-! ## Driver state -/

/-- The members of `Turtlebot3MotorDriver`, with the history of SDK calls.
The two group-sync pointers are `none` until `init` builds the objects; a
built object is the list of parameters it holds (the spec's "aggregation of
per-device (address, payload) pairs": `addParam` appends when it succeeds,
`clearParam` empties the list). -/
structure Driver where
  baudrate_ : Nat
  left_wheel_id_ : Nat
  right_wheel_id_ : Nat
  back_left_wheel_id_ : Nat
  back_right_wheel_id_ : Nat
  torque_ : Bool
  groupSyncWriteVelocity_ : Option (List (Nat × List Nat))
  groupSyncReadEncoder_ : Option (List Nat)
  history : List Call

/-- The constructor `Turtlebot3MotorDriver::Turtlebot3MotorDriver()`. -/
def new (cfg : Config) : Driver where
  baudrate_ := cfg.BAUDRATE
  left_wheel_id_ := cfg.DXL_LEFT_ID
  right_wheel_id_ := cfg.DXL_RIGHT_ID
  back_left_wheel_id_ := cfg.DXL_BACK_LEFT_ID
  back_right_wheel_id_ := cfg.DXL_BACK_RIGHT_ID
  torque_ := false
  groupSyncWriteVelocity_ := none
  groupSyncReadEncoder_ := none
  history := []

/-- The byte a `bool` becomes when it is passed as `uint8_t data`. -/
def boolByte (onoff : Bool) : Nat := if onoff then 1 else 0

/-- `Turtlebot3MotorDriver::setTorque(uint8_t id, bool onoff)`. -/
def setTorque (cfg : Config) (bus : Bus) (s : Driver) (id : Nat) (onoff : Bool) :
    Bool × Driver :=
  let answer := bus.write1ByteTxRx s.history id cfg.ADDR_X_TORQUE_ENABLE (boolByte onoff)
  let dxl_comm_result := answer.1
  let dxl_error := answer.2
  let s1 : Driver :=
    { s with history :=
        s.history ++ [Call.write1ByteTxRx id cfg.ADDR_X_TORQUE_ENABLE (boolByte onoff)] }
  if dxl_comm_result ≠ cfg.COMM_SUCCESS then
    (false, s1)
  else if dxl_error ≠ 0 then
    (false, s1)
  else
    (true, { s1 with torque_ := onoff })

/-- `Turtlebot3MotorDriver::getTorque()`. -/
def getTorque (s : Driver) : Bool := s.torque_

/-- `Turtlebot3MotorDriver::init()`.  `getPortHandler` and `getPacketHandler`
only look up the handler objects; the two `new` expressions build the
group-sync objects with empty parameter lists. -/
def init (cfg : Config) (bus : Bus) (s : Driver) : Bool × Driver :=
  let s0 : Driver := { s with history := s.history ++ [Call.openPort] }
  if bus.openPort s.history = false then
    (false, s0)
  else
    let s1 : Driver := { s0 with history := s0.history ++ [Call.setBaudRate s0.baudrate_] }
    if bus.setBaudRate s0.history s0.baudrate_ = false then
      (false, s1)
    else
      let s2 := (setTorque cfg bus s1 s1.left_wheel_id_ true).2
      let s3 := (setTorque cfg bus s2 s2.right_wheel_id_ true).2
      let s4 := (setTorque cfg bus s3 s3.back_left_wheel_id_ true).2
      let s5 := (setTorque cfg bus s4 s4.back_right_wheel_id_ true).2
      (true, { s5 with groupSyncWriteVelocity_ := some [], groupSyncReadEncoder_ := some [] })

/-- `Turtlebot3MotorDriver::closeDynamixel()`. -/
def closeDynamixel (cfg : Config) (bus : Bus) (s : Driver) : Driver :=
  let s1 := (setTorque cfg bus s s.left_wheel_id_ false).2
  let s2 := (setTorque cfg bus s1 s1.right_wheel_id_ false).2
  let s3 := (setTorque cfg bus s2 s2.back_left_wheel_id_ false).2
  let s4 := (setTorque cfg bus s3 s3.back_right_wheel_id_ false).2
  { s4 with history := s4.history ++ [Call.closePort] }

/-! ## readEncoder -/

/-- The conversion of the integer `getData` answers to `int32_t` (the value
modulo 2^32, in `-2^31 .. 2^31 - 1`), which the assignments to the
`int32_t&` arguments perform. -/
def toInt32 (x : Int) : Int := (x + 2147483648) % 4294967296 - 2147483648

/-- What `readEncoder` leaves behind: the returned flag, the two reference
arguments, and the driver. -/
structure ReadOutcome where
  ret : Bool
  left_value : Int
  right_value : Int
  driver : Driver

/-- `Turtlebot3MotorDriver::readEncoder(int32_t &left_value, int32_t &right_value)`.
`left_value` and `right_value` are the values the two references hold before
the call.  The result is `none` when the read object was never built (the
pointer is dereferenced uninitialised).  A successful `addParam` appends the
id to the object's list, a failed one leaves the list as it is, `clearParam`
empties it.  The two assignments of lines 134-135 store the answer of
`getData` into `int32_t` references, hence `toInt32`. -/
def readEncoder (cfg : Config) (bus : Bus) (s : Driver) (left_value right_value : Int) :
    Option ReadOutcome :=
  match s.groupSyncReadEncoder_ with
  | none => none
  | some params =>
    let h1 := s.history ++ [Call.readAddParam s.left_wheel_id_]
    if bus.readAddParam s.history s.left_wheel_id_ ≠ true then
      some ⟨false, left_value, right_value, { s with history := h1 }⟩
    else
      let params1 := params ++ [s.left_wheel_id_]
      let h2 := h1 ++ [Call.readAddParam s.right_wheel_id_]
      if bus.readAddParam h1 s.right_wheel_id_ ≠ true then
        some ⟨false, left_value, right_value,
          { s with history := h2, groupSyncReadEncoder_ := some params1 }⟩
      else
        let params2 := params1 ++ [s.right_wheel_id_]
        -- txRxPacket: its result is only printed
        let h3 := h2 ++ [Call.readTxRxPacket params2]
        let h4 := h3 ++ [Call.readIsAvailable s.left_wheel_id_
          cfg.ADDR_X_PRESENT_POSITION cfg.LEN_X_PRESENT_POSITION]
        if bus.isAvailable h3 s.left_wheel_id_
            cfg.ADDR_X_PRESENT_POSITION cfg.LEN_X_PRESENT_POSITION ≠ true then
          some ⟨false, left_value, right_value,
            { s with history := h4, groupSyncReadEncoder_ := some params2 }⟩
        else
          let h5 := h4 ++ [Call.readIsAvailable s.right_wheel_id_
            cfg.ADDR_X_PRESENT_POSITION cfg.LEN_X_PRESENT_POSITION]
          if bus.isAvailable h4 s.right_wheel_id_
              cfg.ADDR_X_PRESENT_POSITION cfg.LEN_X_PRESENT_POSITION ≠ true then
            some ⟨false, left_value, right_value,
              { s with history := h5, groupSyncReadEncoder_ := some params2 }⟩
          else
            let h6 := h5 ++ [Call.readGetData s.left_wheel_id_
              cfg.ADDR_X_PRESENT_POSITION cfg.LEN_X_PRESENT_POSITION]
            let h7 := h6 ++ [Call.readGetData s.right_wheel_id_
              cfg.ADDR_X_PRESENT_POSITION cfg.LEN_X_PRESENT_POSITION]
            some ⟨true,
              toInt32 (bus.getData h5 s.left_wheel_id_
                cfg.ADDR_X_PRESENT_POSITION cfg.LEN_X_PRESENT_POSITION),
              toInt32 (bus.getData h6 s.right_wheel_id_
                cfg.ADDR_X_PRESENT_POSITION cfg.LEN_X_PRESENT_POSITION),
              { s with history := h7 ++ [Call.readClearParam],
                       groupSyncReadEncoder_ := some [] }⟩

/-! ## writeVelocity -/

/-- Modelled from the spec: `DXL_LOWORD` is a macro of the SDK, not defined in
the source file.  The spec calls it the low 16 bits of the value. -/
def DXL_LOWORD (l : Int) : Nat := (l % 65536).toNat

/-- Modelled from the spec: `DXL_HIWORD` is a macro of the SDK, not defined in
the source file.  The spec calls it the high 16 bits of the 32-bit value:
bits 16 to 31 of the two's-complement representation. -/
def DXL_HIWORD (l : Int) : Nat := (l / 65536 % 65536).toNat

/-- Modelled from the spec: `DXL_LOBYTE` is a macro of the SDK, not defined in
the source file.  The spec calls it the low byte of a word. -/
def DXL_LOBYTE (w : Nat) : Nat := w % 256

/-- Modelled from the spec: `DXL_HIBYTE` is a macro of the SDK, not defined in
the source file.  The spec calls it the high byte of a word. -/
def DXL_HIBYTE (w : Nat) : Nat := w / 256 % 256

/-- The array `data_byte` after the four assignments of one loop iteration of
`writeVelocity`, for `value[index] = v`. -/
def data_byte (v : Int) : List Nat :=
  [DXL_LOBYTE (DXL_LOWORD v), DXL_HIBYTE (DXL_LOWORD v),
   DXL_LOBYTE (DXL_HIWORD v), DXL_HIBYTE (DXL_HIWORD v)]

/-- The conversion of an `int` to `int8_t` (the value modulo 256, in
`-128 .. 127`). -/
def toInt8 (x : Int) : Int := (x + 128) % 256 - 128

/-- Modelled from the spec: the `commResult` values of the Bus Transport
collaborator.  The spec names the type only; the values are those of the SDK
header, which is not in the source file: `COMM_SUCCESS` 0, `COMM_PORT_BUSY`
-1000, `COMM_TX_FAIL` -1001, `COMM_RX_FAIL` -1002, `COMM_TX_ERROR` -2000,
`COMM_RX_WAITING` -3000, `COMM_RX_TIMEOUT` -3001, `COMM_RX_CORRUPT` -3002,
`COMM_NOT_AVAILABLE` -9000. -/
def sdkCommResults : List Int :=
  [0, -1000, -1001, -1002, -2000, -3000, -3001, -3002, -9000]

/-- The `for` loop of `writeVelocity`, from `index` on; `value` holds the
elements of the array that are still to be sent.  The answer is
`(false, ..)` when the loop left the function through `return false`.
`addParam` copies the four bytes into the object's list. -/
def writeVelocityLoop (bus : Bus) (index : Nat) (value : List Int)
    (params : List (Nat × List Nat)) (history : List Call) :
    Bool × List (Nat × List Nat) × List Call :=
  match value with
  | [] => (true, params, history)
  | v :: rest =>
    let history1 := history ++ [Call.writeAddParam (index + 1) (data_byte v)]
    if bus.writeAddParam history (index + 1) (data_byte v) ≠ true then
      (false, params, history1)
    else
      writeVelocityLoop bus (index + 1) rest (params ++ [(index + 1, data_byte v)]) history1

/-- `Turtlebot3MotorDriver::writeVelocity(int64_t left_value, int64_t right_value,
int64_t back_left_value, int64_t back_right_value)`.  The result is `none` when
the write object was never built.  `dxl_comm_result` is declared `int8_t`
here, so the `int` that `txPacket` returns is narrowed before the comparison. -/
def writeVelocity (cfg : Config) (bus : Bus) (s : Driver)
    (left_value right_value back_left_value back_right_value : Int) :
    Option (Bool × Driver) :=
  match s.groupSyncWriteVelocity_ with
  | none => none
  | some params =>
    let loop := writeVelocityLoop bus 0
      [left_value, right_value, back_left_value, back_right_value] params s.history
    if loop.1 ≠ true then
      some (false, { s with groupSyncWriteVelocity_ := some loop.2.1, history := loop.2.2 })
    else
      let dxl_comm_result := toInt8 (bus.writeTxPacket loop.2.2)
      let h1 := loop.2.2 ++ [Call.writeTxPacket loop.2.1]
      if dxl_comm_result ≠ cfg.COMM_SUCCESS then
        some (false, { s with groupSyncWriteVelocity_ := some loop.2.1, history := h1 })
      else
        some (true, { s with groupSyncWriteVelocity_ := some [],
                             history := h1 ++ [Call.writeClearParam] })

/-! ## controlMotor: lines 183-191 -/

/-- Modelled from the spec: `constrain` is the Arduino macro, not defined in
the source file.  The spec calls it saturation to the closed interval; the
macro is the nested conditional below. -/
def constrain (amt low high : ℚ) : ℚ :=
  if amt < low then low else if amt > high then high else amt

/-- The four values of `wheel_velocity_cmd` (`LEFT`, `RIGHT`, `BACK_LEFT`,
`BACK_RIGHT`, four distinct indices) after a block of four assignments. -/
structure WheelCmd where
  left : ℚ
  right : ℚ
  back_left : ℚ
  back_right : ℚ

/-- Lines 183-186 of `controlMotor`: the transform of the body velocity. -/
def wheelVelocityRaw (cfg : Config) (wheel_separation wheel_separation2 : ℚ)
    (value : Nat → ℚ) : WheelCmd :=
  let lin_x_vel := value cfg.LINEAR_X
  let lin_y_vel := value cfg.LINEAR_Y
  let ang_vel := value cfg.ANGULAR
  { left := (lin_x_vel + lin_y_vel - (ang_vel * (wheel_separation2 - wheel_separation)))
    right := -(lin_x_vel - lin_y_vel + (ang_vel * (wheel_separation2 - wheel_separation)))
    back_left := (lin_x_vel - lin_y_vel - (ang_vel * (wheel_separation2 - wheel_separation)))
    back_right := -(lin_x_vel + lin_y_vel + (ang_vel * (wheel_separation2 - wheel_separation))) }

/-- Lines 188-191 of `controlMotor`: scaling and saturation. -/
def wheelVelocityCmd (cfg : Config) (wheel_separation wheel_separation2 : ℚ)
    (value : Nat → ℚ) : WheelCmd :=
  let raw := wheelVelocityRaw cfg wheel_separation wheel_separation2 value
  { left := constrain (raw.left * cfg.VELOCITY_CONSTANT_VALUE)
      (-cfg.LIMIT_X_MAX_VELOCITY) cfg.LIMIT_X_MAX_VELOCITY
    right := constrain (raw.right * cfg.VELOCITY_CONSTANT_VALUE)
      (-cfg.LIMIT_X_MAX_VELOCITY) cfg.LIMIT_X_MAX_VELOCITY
    back_left := constrain (raw.back_left * cfg.VELOCITY_CONSTANT_VALUE)
      (-cfg.LIMIT_X_MAX_VELOCITY) cfg.LIMIT_X_MAX_VELOCITY
    back_right := constrain (raw.back_right * cfg.VELOCITY_CONSTANT_VALUE)
      (-cfg.LIMIT_X_MAX_VELOCITY) cfg.LIMIT_X_MAX_VELOCITY }

/-! ## Definitions that follow the words of the specification -/

/-- The spec's decoding of four bytes: low word `b0 + 256*b1`, high word
`b2 + 256*b3`, value `low + 65536*high` read as a two's-complement 32-bit
integer. -/
def decodeSpec (bytes : List Nat) : Option Int :=
  match bytes with
  | [b0, b1, b2, b3] =>
    let low := b0 + 256 * b1
    let high := b2 + 256 * b3
    let u : Int := ((low + 65536 * high : Nat) : Int)
    some (if u < 2147483648 then u else u - 4294967296)
  | _ => none

/-- The spec's 4-byte little-endian field of an unsigned 32-bit value. -/
def littleEndian32 (u : Nat) : List Nat :=
  [u % 256, u / 256 % 256, u / 65536 % 256, u / 16777216 % 256]

/-! ## Sample inputs -/

/-- A sample configuration: the four wheels are devices 1 to 4, success is
`0`, and the body velocity is stored as `[linear x, linear y, angular]`. -/
def sampleConfig : Config where
  BAUDRATE := 1000000
  DXL_LEFT_ID := 1
  DXL_RIGHT_ID := 2
  DXL_BACK_LEFT_ID := 3
  DXL_BACK_RIGHT_ID := 4
  ADDR_X_TORQUE_ENABLE := 64
  ADDR_X_GOAL_VELOCITY := 104
  LEN_X_GOAL_VELOCITY := 4
  ADDR_X_PRESENT_POSITION := 132
  LEN_X_PRESENT_POSITION := 4
  COMM_SUCCESS := 0
  LINEAR_X := 0
  LINEAR_Y := 1
  ANGULAR := 2
  VELOCITY_CONSTANT_VALUE := 4169988758 / 100000000
  LIMIT_X_MAX_VELOCITY := 337

/-- A bus on which every call succeeds and every device holds the position
`1000 + id`. -/
def busOk : Bus where
  openPort := fun _ => true
  setBaudRate := fun _ _ => true
  write1ByteTxRx := fun _ _ _ _ => (0, 0)
  readAddParam := fun _ _ => true
  readTxRxPacket := fun _ => 0
  isAvailable := fun _ _ _ _ => true
  getData := fun _ id _ _ => 1000 + id
  writeAddParam := fun _ _ _ => true
  writeTxPacket := fun _ => 0

/-- The driver after a successful `init` on `busOk`: both group-sync objects
exist and hold no parameter. -/
def readyDriver : Driver := (init sampleConfig busOk (new sampleConfig)).2

/-- A bus like `busOk` on which the torque exchange fails in transmission
(result `-1001`). -/
def busTorqueCommFail : Bus := { busOk with write1ByteTxRx := fun _ _ _ _ => (-1001, 0) }

/-- A bus like `busOk` on which the port opens and the baud rate is refused. -/
def busBaudFail : Bus := { busOk with setBaudRate := fun _ _ => false }

/-- A bus like `busOk` on which the round-trip of the read fails (result
`-3001`) and no device has data. -/
def busNoData : Bus :=
  { busOk with readTxRxPacket := fun _ => -3001, isAvailable := fun _ _ _ _ => false }

/-- A bus like `busOk` on which the left device holds the four bytes
`FF FF FF FF` and the right device the bytes `00 00 00 80`, answered by
`getData` as unsigned values. -/
def busHighBit : Bus :=
  { busOk with getData := fun _ id _ _ => if id = 1 then 4294967295 else 2147483648 }

/-- A bus like `busOk` on which the transmission of the write batch fails
(result `-1001`). -/
def busTxFail : Bus := { busOk with writeTxPacket := fun _ => -1001 }

/-- The spec's pure-rotation property of four wheel values: equal magnitudes,
front-left and back-left of one sign, front-right and back-right of one sign,
and the right sign opposite to the left sign. -/
def pureRotationSpec (w : WheelCmd) : Prop :=
  |w.left| = |w.right| ∧ |w.left| = |w.back_left| ∧ |w.left| = |w.back_right| ∧
  SignType.sign w.left = SignType.sign w.back_left ∧
  SignType.sign w.right = SignType.sign w.back_right ∧
  SignType.sign w.right = -SignType.sign w.left

instance (w : WheelCmd) : Decidable (pureRotationSpec w) := by
  unfold pureRotationSpec
  infer_instance

/-- The body velocity `vx = 0, vy = 0, ang = 1` under `sampleConfig`. -/
def turnCommand : Nat → ℚ := fun i => if i = 2 then 1 else 0

/-- The body velocity `vx = 0.2, vy = 0, ang = 0` under `sampleConfig`. -/
def forwardCommand : Nat → ℚ := fun i => if i = 0 then 1 / 5 else 0

/-! ## setTorque and init -/

/-- C3: for every device id, requested value and prior cached flag, if the
torque exchange reports a communication result other than success, or
success with a non-zero device error code, `setTorque` returns false and
`getTorque` is what it was; if it reports success with error code zero,
`setTorque` returns true and `getTorque` is the requested value. -/
theorem setTorque_updates_flag_only_on_success (cfg : Config) (bus : Bus) (s : Driver)
    (id : Nat) (onoff : Bool) :
    ((bus.write1ByteTxRx s.history id cfg.ADDR_X_TORQUE_ENABLE (boolByte onoff)).1
          ≠ cfg.COMM_SUCCESS ∨
        ((bus.write1ByteTxRx s.history id cfg.ADDR_X_TORQUE_ENABLE (boolByte onoff)).1
          = cfg.COMM_SUCCESS ∧
         (bus.write1ByteTxRx s.history id cfg.ADDR_X_TORQUE_ENABLE (boolByte onoff)).2 ≠ 0) →
      (setTorque cfg bus s id onoff).1 = false ∧
      getTorque (setTorque cfg bus s id onoff).2 = getTorque s) ∧
    ((bus.write1ByteTxRx s.history id cfg.ADDR_X_TORQUE_ENABLE (boolByte onoff)).1
          = cfg.COMM_SUCCESS ∧
        (bus.write1ByteTxRx s.history id cfg.ADDR_X_TORQUE_ENABLE (boolByte onoff)).2 = 0 →
      (setTorque cfg bus s id onoff).1 = true ∧
      getTorque (setTorque cfg bus s id onoff).2 = onoff) := by
  constructor
  · intro h
    rcases h with h | ⟨h1, h2⟩
    · simp [setTorque, getTorque, h]
    · simp [setTorque, getTorque, h1, h2]
  · rintro ⟨h1, h2⟩
    simp [setTorque, getTorque, h1, h2]

/-- C3 at concrete inputs: a failed exchange keeps the flag `false` of a new
driver although `true` was requested, a clean exchange sets it. -/
theorem setTorque_updates_flag_only_on_success_witness :
    ((setTorque sampleConfig busTorqueCommFail (new sampleConfig) 1 true).1 = false ∧
      getTorque (setTorque sampleConfig busTorqueCommFail (new sampleConfig) 1 true).2
        = getTorque (new sampleConfig)) ∧
    ((setTorque sampleConfig busOk (new sampleConfig) 1 true).1 = true ∧
      getTorque (setTorque sampleConfig busOk (new sampleConfig) 1 true).2 = true) :=
  ⟨(setTorque_updates_flag_only_on_success sampleConfig busTorqueCommFail
      (new sampleConfig) 1 true).1 (Or.inl (by decide)),
   (setTorque_updates_flag_only_on_success sampleConfig busOk
      (new sampleConfig) 1 true).2 ⟨by decide, by decide⟩⟩

/-- The history grows by exactly one torque exchange in `setTorque`, whatever
the exchange reports, and nothing but the cached flag changes. -/
theorem setTorque_frame (cfg : Config) (bus : Bus) (s : Driver) (id : Nat) (onoff : Bool) :
    (setTorque cfg bus s id onoff).2 =
      { s with
        torque_ := (setTorque cfg bus s id onoff).2.torque_
        history :=
          s.history ++ [Call.write1ByteTxRx id cfg.ADDR_X_TORQUE_ENABLE (boolByte onoff)] } := by
  unfold setTorque
  by_cases h1 : (bus.write1ByteTxRx s.history id cfg.ADDR_X_TORQUE_ENABLE (boolByte onoff)).1
      = cfg.COMM_SUCCESS
  · by_cases h2 : (bus.write1ByteTxRx s.history id cfg.ADDR_X_TORQUE_ENABLE (boolByte onoff)).2
        = 0
    · simp [h1, h2]
    · simp [h1, h2]
  · simp [h1]

/-- C8: `init` returns true exactly when opening the port and setting the
baud rate both succeed.  If the port does not open, the only call made is
`openPort`; if the baud rate is refused, the only calls are `openPort` and
`setBaudRate`; in both cases `init` returns false and the driver is otherwise
untouched (no torque exchange, no group-sync object built).  If both succeed,
`init` returns true whatever the torque exchanges report, the calls made are
`openPort`, `setBaudRate` and four torque-enable exchanges to the left, right,
back-left and back-right device in that order, and both group-sync objects
exist and are empty. -/
theorem init_succeeds_iff_port_and_baud (cfg : Config) (bus : Bus) (s : Driver) :
    ((init cfg bus s).1 = true ↔
      (bus.openPort s.history = true ∧
       bus.setBaudRate (s.history ++ [Call.openPort]) s.baudrate_ = true)) ∧
    (bus.openPort s.history = false →
      (init cfg bus s).1 = false ∧
      (init cfg bus s).2 = { s with history := s.history ++ [Call.openPort] }) ∧
    (bus.openPort s.history = true →
      bus.setBaudRate (s.history ++ [Call.openPort]) s.baudrate_ = false →
      (init cfg bus s).1 = false ∧
      (init cfg bus s).2 =
        { s with history := s.history ++ [Call.openPort, Call.setBaudRate s.baudrate_] }) ∧
    (bus.openPort s.history = true →
      bus.setBaudRate (s.history ++ [Call.openPort]) s.baudrate_ = true →
      (init cfg bus s).1 = true ∧
      (init cfg bus s).2.history =
        s.history ++
          [Call.openPort, Call.setBaudRate s.baudrate_,
           Call.write1ByteTxRx s.left_wheel_id_ cfg.ADDR_X_TORQUE_ENABLE 1,
           Call.write1ByteTxRx s.right_wheel_id_ cfg.ADDR_X_TORQUE_ENABLE 1,
           Call.write1ByteTxRx s.back_left_wheel_id_ cfg.ADDR_X_TORQUE_ENABLE 1,
           Call.write1ByteTxRx s.back_right_wheel_id_ cfg.ADDR_X_TORQUE_ENABLE 1] ∧
      (init cfg bus s).2.groupSyncWriteVelocity_ = some [] ∧
      (init cfg bus s).2.groupSyncReadEncoder_ = some []) := by
  refine ⟨?_, ?_, ?_, ?_⟩
  · cases ho : bus.openPort s.history <;>
      cases hb : bus.setBaudRate (s.history ++ [Call.openPort]) s.baudrate_ <;>
      simp [init, ho, hb]
  · intro ho
    simp [init, ho]
  · intro ho hb
    simp [init, ho, hb]
  · intro ho hb
    simp only [init, ho, hb]
    refine ⟨by simp, ?_, by simp, by simp⟩
    simp only [Bool.true_eq_false, if_false]
    rw [setTorque_frame, setTorque_frame, setTorque_frame, setTorque_frame]
    simp [boolByte]

/-- C8 at concrete inputs: a refused baud rate stops `init` after two calls,
and on a bus where every torque exchange fails `init` still returns true
after four exchanges. -/
theorem init_succeeds_iff_port_and_baud_witness :
    ((init sampleConfig busBaudFail (new sampleConfig)).1 = false ∧
      (init sampleConfig busBaudFail (new sampleConfig)).2 =
        { new sampleConfig with
          history := (new sampleConfig).history ++
            [Call.openPort, Call.setBaudRate (new sampleConfig).baudrate_] }) ∧
    ((init sampleConfig busTorqueCommFail (new sampleConfig)).1 = true ∧
      (init sampleConfig busTorqueCommFail (new sampleConfig)).2.history =
        (new sampleConfig).history ++
          [Call.openPort, Call.setBaudRate (new sampleConfig).baudrate_,
           Call.write1ByteTxRx (new sampleConfig).left_wheel_id_
             sampleConfig.ADDR_X_TORQUE_ENABLE 1,
           Call.write1ByteTxRx (new sampleConfig).right_wheel_id_
             sampleConfig.ADDR_X_TORQUE_ENABLE 1,
           Call.write1ByteTxRx (new sampleConfig).back_left_wheel_id_
             sampleConfig.ADDR_X_TORQUE_ENABLE 1,
           Call.write1ByteTxRx (new sampleConfig).back_right_wheel_id_
             sampleConfig.ADDR_X_TORQUE_ENABLE 1] ∧
      (init sampleConfig busTorqueCommFail (new sampleConfig)).2.groupSyncWriteVelocity_
        = some [] ∧
      (init sampleConfig busTorqueCommFail (new sampleConfig)).2.groupSyncReadEncoder_
        = some []) :=
  ⟨(init_succeeds_iff_port_and_baud sampleConfig busBaudFail (new sampleConfig)).2.2.1
      (by decide) (by decide),
   (init_succeeds_iff_port_and_baud sampleConfig busTorqueCommFail (new sampleConfig)).2.2.2
      (by decide) (by decide)⟩

/-! ## readEncoder -/

/-- A value that fits in `int32_t` is stored unchanged. -/
theorem toInt32_of_int32 (x : Int) (hlo : -2147483648 ≤ x) (hhi : x < 2147483648) :
    toInt32 x = x := by
  unfold toInt32
  omega

/-- C9: on a driver whose read object exists, `readEncoder` returns a result,
and it returns true exactly when both `addParam` calls succeed and both
`isAvailable` calls (made after the round-trip, left first) answer true; the
two outputs are then the values `getData` answers for the left and the right
device, as the `int32_t` references store them (unchanged when the value fits
in `int32_t`, the same 32 bits read as two's complement otherwise).  In every
other case it returns false and both outputs are what they were before the
call.  The result of the round-trip itself plays no part. -/
theorem readEncoder_all_or_nothing (cfg : Config) (bus : Bus) (s : Driver)
    (params : List Nat) (left_value right_value : Int)
    (hctx : s.groupSyncReadEncoder_ = some params) :
    let addr := cfg.ADDR_X_PRESENT_POSITION
    let len := cfg.LEN_X_PRESENT_POSITION
    let h1 := s.history ++ [Call.readAddParam s.left_wheel_id_]
    let h2 := h1 ++ [Call.readAddParam s.right_wheel_id_]
    let h3 := h2 ++ [Call.readTxRxPacket (params ++ [s.left_wheel_id_] ++ [s.right_wheel_id_])]
    let h4 := h3 ++ [Call.readIsAvailable s.left_wheel_id_ addr len]
    let h5 := h4 ++ [Call.readIsAvailable s.right_wheel_id_ addr len]
    let h6 := h5 ++ [Call.readGetData s.left_wheel_id_ addr len]
    let allOk : Prop :=
      bus.readAddParam s.history s.left_wheel_id_ = true ∧
      bus.readAddParam h1 s.right_wheel_id_ = true ∧
      bus.isAvailable h3 s.left_wheel_id_ addr len = true ∧
      bus.isAvailable h4 s.right_wheel_id_ addr len = true
    let dataLeft := bus.getData h5 s.left_wheel_id_ addr len
    let dataRight := bus.getData h6 s.right_wheel_id_ addr len
    ∃ out, readEncoder cfg bus s left_value right_value = some out ∧
      (out.ret = true ↔ allOk) ∧
      (allOk →
        out.left_value = toInt32 dataLeft ∧
        out.right_value = toInt32 dataRight ∧
        (-2147483648 ≤ dataLeft → dataLeft < 2147483648 → out.left_value = dataLeft) ∧
        (-2147483648 ≤ dataRight → dataRight < 2147483648 → out.right_value = dataRight)) ∧
      (¬ allOk →
        out.ret = false ∧ out.left_value = left_value ∧ out.right_value = right_value) := by
  intro addr len h1 h2 h3 h4 h5 h6 allOk dataLeft dataRight
  simp only [readEncoder, hctx]
  by_cases a1 : bus.readAddParam s.history s.left_wheel_id_ = true
  · by_cases a2 : bus.readAddParam h1 s.right_wheel_id_ = true
    · by_cases a3 : bus.isAvailable h3 s.left_wheel_id_ addr len = true
      · by_cases a4 : bus.isAvailable h4 s.right_wheel_id_ addr len = true
        · have hall : allOk := ⟨a1, a2, a3, a4⟩
          simp only [a1, a2, a3, a4, h1, h2, h3, h4, addr, len, ne_eq, not_true_eq_false,
            if_false] at *
          exact ⟨_, rfl, by simpa using hall,
            fun _ => ⟨rfl, rfl, fun hlo hhi => toInt32_of_int32 _ hlo hhi,
              fun hlo hhi => toInt32_of_int32 _ hlo hhi⟩,
            fun hn => absurd hall hn⟩
        · have hall : ¬ allOk := fun h => a4 h.2.2.2
          simp only [a1, a2, a3, a4, h1, h2, h3, h4, addr, len, ne_eq, not_true_eq_false,
            not_false_eq_true, if_false, if_true] at *
          exact ⟨_, rfl, by simpa using hall, fun h => absurd h hall, fun _ => ⟨rfl, rfl, rfl⟩⟩
      · have hall : ¬ allOk := fun h => a3 h.2.2.1
        simp only [a1, a2, a3, h1, h2, h3, addr, len, ne_eq, not_true_eq_false,
          not_false_eq_true, if_false, if_true] at *
        exact ⟨_, rfl, by simpa using hall, fun h => absurd h hall, fun _ => ⟨rfl, rfl, rfl⟩⟩
    · have hall : ¬ allOk := fun h => a2 h.2.1
      simp only [a1, a2, h1, ne_eq, not_true_eq_false, not_false_eq_true, if_false,
        if_true] at *
      exact ⟨_, rfl, by simpa using hall, fun h => absurd h hall, fun _ => ⟨rfl, rfl, rfl⟩⟩
  · have hall : ¬ allOk := fun h => a1 h.1
    simp only [a1, ne_eq, not_false_eq_true, if_true] at *
    exact ⟨_, rfl, by simpa using hall, fun h => absurd h hall, fun _ => ⟨rfl, rfl, rfl⟩⟩

/-- C9 at concrete inputs: on `busOk` the outputs `7` and `9` are replaced by
the positions `1001` and `1002` of devices 1 and 2; on `busHighBit` the bytes
`FF FF FF FF` and `00 00 00 80` are stored as `-1` and `-2147483648`. -/
theorem readEncoder_all_or_nothing_witness :
    readyDriver.groupSyncReadEncoder_ = some [] ∧
    (∃ out, readEncoder sampleConfig busOk readyDriver 7 9 = some out ∧
      out.ret = true ∧ out.left_value = 1001 ∧ out.right_value = 1002) ∧
    (∃ out, readEncoder sampleConfig busHighBit readyDriver 7 9 = some out ∧
      out.ret = true ∧ out.left_value = -1 ∧ out.right_value = -2147483648) := by
  refine ⟨rfl, ?_, ?_⟩
  · obtain ⟨out, hout, hret, hok, _⟩ :=
      readEncoder_all_or_nothing sampleConfig busOk readyDriver [] 7 9 rfl
    have hd := hok ⟨rfl, rfl, rfl, rfl⟩
    exact ⟨out, hout, hret.mpr ⟨rfl, rfl, rfl, rfl⟩, hd.1.trans (by decide),
      hd.2.1.trans (by decide)⟩
  · obtain ⟨out, hout, hret, hok, _⟩ :=
      readEncoder_all_or_nothing sampleConfig busHighBit readyDriver [] 7 9 rfl
    have hd := hok ⟨rfl, rfl, rfl, rfl⟩
    exact ⟨out, hout, hret.mpr ⟨rfl, rfl, rfl, rfl⟩, hd.1.trans (by decide),
      hd.2.1.trans (by decide)⟩

/-- Where the parameters of the read object end up: starting from an empty
list, the list is empty after `readEncoder` exactly when the call returned
true or the very first `addParam` failed.  Every other return leaves the ids
that were added. -/
theorem readEncoder_params_after (cfg : Config) (bus : Bus) (s : Driver)
    (left_value right_value : Int) (hctx : s.groupSyncReadEncoder_ = some []) :
    ∃ out, readEncoder cfg bus s left_value right_value = some out ∧
      (out.driver.groupSyncReadEncoder_ = some [] ↔
        (out.ret = true ∨ bus.readAddParam s.history s.left_wheel_id_ = false)) := by
  simp only [readEncoder, hctx]
  split_ifs <;> simp_all

/-- C1, at the failing input: the driver is the one a successful `init`
leaves (empty read object), both `addParam` calls succeed and no device has
data.  `readEncoder` returns false through the early `return` after the left
`isAvailable`, without `clearParam`, and the read object still holds the ids
1 and 2. -/
theorem readEncoder_data_unavailable_keeps_params :
    readyDriver.groupSyncReadEncoder_ = some [] ∧
    (readEncoder sampleConfig busNoData readyDriver 7 9).map
        (fun out => (out.ret, out.driver.groupSyncReadEncoder_))
      = some (false, some [1, 2]) := by
  decide

/-! ## writeVelocity -/

/-- The four bytes of `data_byte` are the little-endian field of the low 32
bits of the value. -/
theorem data_byte_eq_littleEndian32 (v : Int) :
    data_byte v = littleEndian32 (v % 4294967296).toNat := by
  simp only [data_byte, littleEndian32, DXL_LOBYTE, DXL_HIBYTE, DXL_LOWORD, DXL_HIWORD]
  have e0 : (v % 65536).toNat % 256 = (v % 4294967296).toNat % 256 := by omega
  have e1 : (v % 65536).toNat / 256 % 256 = (v % 4294967296).toNat / 256 % 256 := by omega
  have e2 : (v / 65536 % 65536).toNat % 256 = (v % 4294967296).toNat / 65536 % 256 := by omega
  have e3 : (v / 65536 % 65536).toNat / 256 % 256
      = (v % 4294967296).toNat / 16777216 % 256 := by omega
  rw [e0, e1, e2, e3]

/-- The decoding of a four-byte list, written out. -/
theorem decodeSpec_four (b0 b1 b2 b3 : Nat) :
    decodeSpec [b0, b1, b2, b3] =
      some (if (((b0 + 256 * b1 + 65536 * (b2 + 256 * b3) : Nat) : Int)) < 2147483648
        then (((b0 + 256 * b1 + 65536 * (b2 + 256 * b3) : Nat) : Int))
        else (((b0 + 256 * b1 + 65536 * (b2 + 256 * b3) : Nat) : Int)) - 4294967296) :=
  rfl

/-- C4: for every signed 32-bit integer `v`, the four bytes `writeVelocity`
builds for `v` decode back to `v` when reassembled as low word
`b0 + 256*b1`, high word `b2 + 256*b3`, and `low + 65536*high` read as a
two's-complement 32-bit integer. -/
theorem data_byte_roundtrip (v : Int) (hlo : -2147483648 ≤ v) (hhi : v < 2147483648) :
    decodeSpec (data_byte v) = some v := by
  unfold data_byte
  rw [decodeSpec_four]
  unfold DXL_LOBYTE DXL_HIBYTE DXL_LOWORD DXL_HIWORD
  refine congrArg some ?_
  split_ifs <;> omega

/-- C4 at a concrete input: the most negative 32-bit integer survives the
round trip. -/
theorem data_byte_roundtrip_witness :
    decodeSpec (data_byte (-2147483648)) = some (-2147483648) :=
  data_byte_roundtrip (-2147483648) (by decide) (by decide)

/-- What `writeVelocity` sends when every `addParam` succeeds on an empty
write object: four `addParam` calls for the ids 1, 2, 3, 4 in that order, then
one `txPacket` whose batch holds, for device `i`, the little-endian field of
the low 32 bits of the `i`-th value.  The call returns true exactly when the
result of `txPacket`, narrowed to `int8_t`, equals `COMM_SUCCESS`; only then
is `clearParam` called. -/
theorem writeVelocity_batch (cfg : Config) (bus : Bus) (s : Driver) (v1 v2 v3 v4 : Int)
    (hctx : s.groupSyncWriteVelocity_ = some [])
    (a1 : bus.writeAddParam s.history 1 (data_byte v1) = true)
    (a2 : bus.writeAddParam (s.history ++ [Call.writeAddParam 1 (data_byte v1)])
      2 (data_byte v2) = true)
    (a3 : bus.writeAddParam (s.history ++ [Call.writeAddParam 1 (data_byte v1)] ++
      [Call.writeAddParam 2 (data_byte v2)]) 3 (data_byte v3) = true)
    (a4 : bus.writeAddParam (s.history ++ [Call.writeAddParam 1 (data_byte v1)] ++
      [Call.writeAddParam 2 (data_byte v2)] ++ [Call.writeAddParam 3 (data_byte v3)])
      4 (data_byte v4) = true) :
    let batch : List (Nat × List Nat) :=
      [(1, littleEndian32 (v1 % 4294967296).toNat), (2, littleEndian32 (v2 % 4294967296).toNat),
       (3, littleEndian32 (v3 % 4294967296).toNat), (4, littleEndian32 (v4 % 4294967296).toNat)]
    let h4 := s.history ++ [Call.writeAddParam 1 (data_byte v1)] ++
      [Call.writeAddParam 2 (data_byte v2)] ++ [Call.writeAddParam 3 (data_byte v3)] ++
      [Call.writeAddParam 4 (data_byte v4)]
    ∃ out, writeVelocity cfg bus s v1 v2 v3 v4 = some out ∧
      (out.1 = true ↔ toInt8 (bus.writeTxPacket h4) = cfg.COMM_SUCCESS) ∧
      out.2.history =
        h4 ++ [Call.writeTxPacket batch] ++ (if out.1 then [Call.writeClearParam] else []) ∧
      out.2.groupSyncWriteVelocity_ = some (if out.1 then [] else batch) := by
  intro batch h4
  have hb : batch = [(1, data_byte v1), (2, data_byte v2), (3, data_byte v3),
      (4, data_byte v4)] := by
    simp only [batch, data_byte_eq_littleEndian32]
  have hloop : writeVelocityLoop bus 0 [v1, v2, v3, v4] [] s.history = (true, batch, h4) := by
    simp only [List.append_assoc, List.cons_append, List.nil_append] at a2 a3 a4
    simp [writeVelocityLoop, a1, a2, a3, a4, hb, h4]
  simp only [writeVelocity, hctx, hloop]
  by_cases ht : toInt8 (bus.writeTxPacket h4) = cfg.COMM_SUCCESS
  · simp [ht]
  · simp [ht]

/-- Of the results the SDK defines, only `COMM_SUCCESS` becomes `0` when it
is narrowed to `int8_t`. -/
theorem toInt8_eq_zero_iff_of_sdk (result : Int) (h : result ∈ sdkCommResults) :
    toInt8 result = 0 ↔ result = 0 := by
  simp only [sdkCommResults, List.mem_cons, List.mem_singleton, List.not_mem_nil,
    or_false] at h
  unfold toInt8
  omega

/-- C10: for every four wheel values, on an empty write object whose four
`addParam` calls succeed, with `COMM_SUCCESS = 0` and a `txPacket` result
among the results the SDK defines: the batch that `writeVelocity` transmits
holds exactly four parameters, for the device ids 1, 2, 3, 4 in that order,
the payload for device `i` is the 4-byte little-endian field of the low 32
bits of the `i`-th value, and `writeVelocity` returns true exactly when
`txPacket` reports `COMM_SUCCESS`. -/
theorem writeVelocity_transmits_four_fields (cfg : Config) (bus : Bus) (s : Driver)
    (v1 v2 v3 v4 : Int)
    (hctx : s.groupSyncWriteVelocity_ = some [])
    (hsucc : cfg.COMM_SUCCESS = 0)
    (a1 : bus.writeAddParam s.history 1 (data_byte v1) = true)
    (a2 : bus.writeAddParam (s.history ++ [Call.writeAddParam 1 (data_byte v1)])
      2 (data_byte v2) = true)
    (a3 : bus.writeAddParam (s.history ++ [Call.writeAddParam 1 (data_byte v1)] ++
      [Call.writeAddParam 2 (data_byte v2)]) 3 (data_byte v3) = true)
    (a4 : bus.writeAddParam (s.history ++ [Call.writeAddParam 1 (data_byte v1)] ++
      [Call.writeAddParam 2 (data_byte v2)] ++ [Call.writeAddParam 3 (data_byte v3)])
      4 (data_byte v4) = true)
    (hres : bus.writeTxPacket (s.history ++ [Call.writeAddParam 1 (data_byte v1)] ++
      [Call.writeAddParam 2 (data_byte v2)] ++ [Call.writeAddParam 3 (data_byte v3)] ++
      [Call.writeAddParam 4 (data_byte v4)]) ∈ sdkCommResults) :
    let batch : List (Nat × List Nat) :=
      [(1, littleEndian32 (v1 % 4294967296).toNat), (2, littleEndian32 (v2 % 4294967296).toNat),
       (3, littleEndian32 (v3 % 4294967296).toNat), (4, littleEndian32 (v4 % 4294967296).toNat)]
    let h4 := s.history ++ [Call.writeAddParam 1 (data_byte v1)] ++
      [Call.writeAddParam 2 (data_byte v2)] ++ [Call.writeAddParam 3 (data_byte v3)] ++
      [Call.writeAddParam 4 (data_byte v4)]
    ∃ out, writeVelocity cfg bus s v1 v2 v3 v4 = some out ∧
      (out.1 = true ↔ bus.writeTxPacket h4 = cfg.COMM_SUCCESS) ∧
      out.2.history =
        h4 ++ [Call.writeTxPacket batch] ++ (if out.1 then [Call.writeClearParam] else []) := by
  intro batch h4
  obtain ⟨out, hout, hret, hhist, _⟩ := writeVelocity_batch cfg bus s v1 v2 v3 v4 hctx a1 a2 a3 a4
  refine ⟨out, hout, ?_, hhist⟩
  rw [hret, hsucc]
  exact toInt8_eq_zero_iff_of_sdk _ hres

/-- C10 at concrete inputs: on `busOk` the values `1, 2, 3, 4` go out as four
little-endian fields and the call returns true; on `busTxFail` the call
returns false. -/
theorem writeVelocity_transmits_four_fields_witness :
    readyDriver.groupSyncWriteVelocity_ = some [] ∧
    (∃ out, writeVelocity sampleConfig busOk readyDriver 1 2 3 4 = some out ∧
      out.1 = true ∧
      out.2.history = readyDriver.history ++
        [Call.writeAddParam 1 [1, 0, 0, 0], Call.writeAddParam 2 [2, 0, 0, 0],
         Call.writeAddParam 3 [3, 0, 0, 0], Call.writeAddParam 4 [4, 0, 0, 0],
         Call.writeTxPacket [(1, [1, 0, 0, 0]), (2, [2, 0, 0, 0]), (3, [3, 0, 0, 0]),
           (4, [4, 0, 0, 0])],
         Call.writeClearParam]) ∧
    (∃ out, writeVelocity sampleConfig busTxFail readyDriver 1 2 3 4 = some out ∧
      out.1 = false) := by
  refine ⟨rfl, ?_, ?_⟩
  · obtain ⟨out, hout, hret, hhist⟩ :=
      writeVelocity_transmits_four_fields sampleConfig busOk readyDriver 1 2 3 4
        rfl rfl rfl rfl rfl rfl (by decide)
    have ht : out.1 = true := hret.mpr rfl
    refine ⟨out, hout, ht, ?_⟩
    rw [hhist, ht]
    decide
  · obtain ⟨out, hout, hret, _⟩ :=
      writeVelocity_transmits_four_fields sampleConfig busTxFail readyDriver 1 2 3 4
        rfl rfl rfl rfl rfl rfl (by decide)
    refine ⟨out, hout, ?_⟩
    cases hb : out.1 with
    | false => rfl
    | true => exact absurd (hret.mp hb) (by decide)

/-- C2, at the failing input: the driver is the one a successful `init`
leaves (empty write object), every `addParam` succeeds and `txPacket` reports
a transmit failure.  `writeVelocity` returns false through the early `return`
after `txPacket`, without `clearParam`, and the write object still holds the
four parameters of this call. -/
theorem writeVelocity_tx_failure_keeps_params :
    readyDriver.groupSyncWriteVelocity_ = some [] ∧
    (writeVelocity sampleConfig busTxFail readyDriver 100 (-100) 100 (-100)).map
        (fun out => (out.1, out.2.groupSyncWriteVelocity_))
      = some (false, some [(1, [100, 0, 0, 0]), (2, [156, 255, 255, 255]),
          (3, [100, 0, 0, 0]), (4, [156, 255, 255, 255])]) := by
  decide

/-! ## controlMotor: the transform -/

/-- With symmetric limits `constrain` commutes with negation. -/
theorem constrain_neg (x v : ℚ) (hv : 0 ≤ v) :
    constrain (-x) (-v) v = -constrain x (-v) v := by
  unfold constrain
  split_ifs <;> linarith

/-- C6, counterexample: for the pure rotation `vx = 0, vy = 0, ang = 1` with
`wheel_separation = 0.08` and `wheel_separation_sum = 0.16` the transform
gives `-0.08` on all four wheels, so the right pair has the sign of the left
pair, not the opposite one; the same holds after scaling and saturation. -/
theorem pure_rotation_right_sign_not_opposite :
    turnCommand sampleConfig.LINEAR_X = 0 ∧ turnCommand sampleConfig.LINEAR_Y = 0 ∧
    turnCommand sampleConfig.ANGULAR ≠ 0 ∧
    ¬ pureRotationSpec (wheelVelocityRaw sampleConfig (2 / 25) (4 / 25) turnCommand) ∧
    ¬ pureRotationSpec (wheelVelocityCmd sampleConfig (2 / 25) (4 / 25) turnCommand) := by
  refine ⟨by simp [turnCommand, sampleConfig], by simp [turnCommand, sampleConfig],
    by simp [turnCommand, sampleConfig], ?_, ?_⟩
  · intro h
    have h6 := h.2.2.2.2.2
    norm_num [wheelVelocityRaw, turnCommand, sampleConfig] at h6
  · intro h
    have h6 := h.2.2.2.2.2
    norm_num [wheelVelocityCmd, wheelVelocityRaw, constrain, turnCommand, sampleConfig] at h6

/-- C6, amended: for every command with `vx = 0` and `vy = 0` (any angular
velocity, any geometry constants) the four wheel values of the transform are
all equal to `-(ang * (wheel_separation2 - wheel_separation))`: they have
equal magnitude and one common sign, the right pair included; the four values
after scaling and saturation are equal as well. -/
theorem pure_rotation_all_wheels_equal (cfg : Config) (sep sep2 : ℚ) (value : Nat → ℚ)
    (hx : value cfg.LINEAR_X = 0) (hy : value cfg.LINEAR_Y = 0) :
    let raw := wheelVelocityRaw cfg sep sep2 value
    let cmd := wheelVelocityCmd cfg sep sep2 value
    (raw.left = -(value cfg.ANGULAR * (sep2 - sep)) ∧ raw.right = raw.left ∧
      raw.back_left = raw.left ∧ raw.back_right = raw.left) ∧
    (|raw.left| = |raw.right| ∧ |raw.left| = |raw.back_left| ∧
      |raw.left| = |raw.back_right| ∧
      SignType.sign raw.left = SignType.sign raw.back_left ∧
      SignType.sign raw.right = SignType.sign raw.back_right ∧
      SignType.sign raw.right = SignType.sign raw.left) ∧
    (cmd.right = cmd.left ∧ cmd.back_left = cmd.left ∧ cmd.back_right = cmd.left) := by
  intro raw cmd
  have hl : raw.left = -(value cfg.ANGULAR * (sep2 - sep)) := by
    simp only [raw, wheelVelocityRaw, hx, hy]; ring
  have hr : raw.right = raw.left := by
    simp only [raw, wheelVelocityRaw, hx, hy]; ring
  have hbl : raw.back_left = raw.left := by
    simp only [raw, wheelVelocityRaw, hx, hy]; ring
  have hbr : raw.back_right = raw.left := by
    simp only [raw, wheelVelocityRaw, hx, hy]; ring
  refine ⟨⟨hl, hr, hbl, hbr⟩, ?_, ?_⟩
  · rw [hr, hbl, hbr]
    exact ⟨rfl, rfl, rfl, rfl, rfl, rfl⟩
  · have cr : cmd.right = constrain (raw.right * cfg.VELOCITY_CONSTANT_VALUE)
        (-cfg.LIMIT_X_MAX_VELOCITY) cfg.LIMIT_X_MAX_VELOCITY := rfl
    have cl : cmd.left = constrain (raw.left * cfg.VELOCITY_CONSTANT_VALUE)
        (-cfg.LIMIT_X_MAX_VELOCITY) cfg.LIMIT_X_MAX_VELOCITY := rfl
    have cbl : cmd.back_left = constrain (raw.back_left * cfg.VELOCITY_CONSTANT_VALUE)
        (-cfg.LIMIT_X_MAX_VELOCITY) cfg.LIMIT_X_MAX_VELOCITY := rfl
    have cbr : cmd.back_right = constrain (raw.back_right * cfg.VELOCITY_CONSTANT_VALUE)
        (-cfg.LIMIT_X_MAX_VELOCITY) cfg.LIMIT_X_MAX_VELOCITY := rfl
    rw [cr, cl, cbl, cbr, hr, hbl, hbr]
    exact ⟨rfl, rfl, rfl⟩

/-- C6, amended, at the input of the counterexample: all four raw values are
`-(1 * (0.16 - 0.08))`. -/
theorem pure_rotation_all_wheels_equal_witness :
    turnCommand sampleConfig.LINEAR_X = 0 ∧ turnCommand sampleConfig.LINEAR_Y = 0 ∧
    (wheelVelocityRaw sampleConfig (2 / 25) (4 / 25) turnCommand).left
      = -(turnCommand sampleConfig.ANGULAR * (4 / 25 - 2 / 25)) ∧
    (wheelVelocityRaw sampleConfig (2 / 25) (4 / 25) turnCommand).right
      = (wheelVelocityRaw sampleConfig (2 / 25) (4 / 25) turnCommand).left :=
  ⟨rfl, rfl,
   (pure_rotation_all_wheels_equal sampleConfig (2 / 25) (4 / 25) turnCommand rfl rfl).1.1,
   (pure_rotation_all_wheels_equal sampleConfig (2 / 25) (4 / 25) turnCommand rfl rfl).1.2.1⟩

/-- C7: for every command with `vy = 0` and `ang = 0` (any `vx`, any geometry
constants) and a limit `LIMIT_X_MAX_VELOCITY >= 0`, after scaling and
saturation the front-left value equals the back-left value, the front-right
value equals the back-right value, and each left value is the negation of the
corresponding right value.  For `vx = 0.2`, `wheel_separation = 0.08`,
`wheel_separation_sum = 0.16` the values before scaling are
`+0.2, -0.2, +0.2, -0.2`. -/
theorem forward_motion_left_right_mirror (cfg : Config) (sep sep2 : ℚ) (value : Nat → ℚ)
    (hv : 0 ≤ cfg.LIMIT_X_MAX_VELOCITY)
    (hy : value cfg.LINEAR_Y = 0) (ha : value cfg.ANGULAR = 0) :
    ((wheelVelocityCmd cfg sep sep2 value).left = (wheelVelocityCmd cfg sep sep2 value).back_left ∧
      (wheelVelocityCmd cfg sep sep2 value).right
        = (wheelVelocityCmd cfg sep sep2 value).back_right ∧
      (wheelVelocityCmd cfg sep sep2 value).left = -(wheelVelocityCmd cfg sep sep2 value).right ∧
      (wheelVelocityCmd cfg sep sep2 value).back_left
        = -(wheelVelocityCmd cfg sep sep2 value).back_right) ∧
    ((wheelVelocityRaw sampleConfig (2 / 25) (4 / 25) forwardCommand).left = 1 / 5 ∧
      (wheelVelocityRaw sampleConfig (2 / 25) (4 / 25) forwardCommand).right = -(1 / 5) ∧
      (wheelVelocityRaw sampleConfig (2 / 25) (4 / 25) forwardCommand).back_left = 1 / 5 ∧
      (wheelVelocityRaw sampleConfig (2 / 25) (4 / 25) forwardCommand).back_right = -(1 / 5)) := by
  have hl : (wheelVelocityRaw cfg sep sep2 value).left = value cfg.LINEAR_X := by
    simp only [wheelVelocityRaw, hy, ha]; ring
  have hr : (wheelVelocityRaw cfg sep sep2 value).right = -value cfg.LINEAR_X := by
    simp only [wheelVelocityRaw, hy, ha]; ring
  have hbl : (wheelVelocityRaw cfg sep sep2 value).back_left = value cfg.LINEAR_X := by
    simp only [wheelVelocityRaw, hy, ha]; ring
  have hbr : (wheelVelocityRaw cfg sep sep2 value).back_right = -value cfg.LINEAR_X := by
    simp only [wheelVelocityRaw, hy, ha]; ring
  have hneg := constrain_neg (value cfg.LINEAR_X * cfg.VELOCITY_CONSTANT_VALUE)
    cfg.LIMIT_X_MAX_VELOCITY hv
  refine ⟨?_, ?_⟩
  · simp only [wheelVelocityCmd, hl, hr, hbl, hbr, neg_mul, hneg, neg_neg, and_self]
  · norm_num [wheelVelocityRaw, forwardCommand, sampleConfig]

/-- C7 at the scenario of the spec: `vx = 0.2` under the sample
configuration. -/
theorem forward_motion_left_right_mirror_witness :
    (0 : ℚ) ≤ sampleConfig.LIMIT_X_MAX_VELOCITY ∧
    forwardCommand sampleConfig.LINEAR_Y = 0 ∧ forwardCommand sampleConfig.ANGULAR = 0 ∧
    (wheelVelocityCmd sampleConfig (2 / 25) (4 / 25) forwardCommand).left
      = -(wheelVelocityCmd sampleConfig (2 / 25) (4 / 25) forwardCommand).right :=
  have hv : (0 : ℚ) ≤ sampleConfig.LIMIT_X_MAX_VELOCITY := by
    show (0 : ℚ) ≤ 337
    norm_num
  ⟨hv, rfl, rfl,
   (forward_motion_left_right_mirror sampleConfig (2 / 25) (4 / 25) forwardCommand
      hv rfl rfl).1.2.2.1⟩

end Turtlebot3MotorDriver
